import Mathlib

/-!
Verification development for the sftpgo-operator reconciliation logic.

The definitions below are a shallow embedding of the Go sources:
  * `internal/sftpgo/client.go` — the REST client result handling and the
    `UserFromCR` payload builder;
  * `internal/controller/sftpgoserver_controller.go` — the server defaulting
    (`applyDefaults`, `getSFTPPort`, `getWebPort`, `sftpgoMinimalConfig`) and
    the `SftpGoUserReconciler` pass (`Reconcile`, `getAdminCredentials`,
    `resolvePassword`, `resolvePublicKeys`, `deleteUserFromSFTPGO`).

Machine integers (`int`, `int32`, `int64`) are modelled as `Int`; the only
arithmetic performed by the embedded code is Go's truncated integer division,
modelled by `Int.tdiv`.  HTTP transport is external: each remote operation is
parametrised by the observed HTTP response (status code and decoded body, or a
transport failure).  Object-store reads are parametrised likewise.  Writes of
the status subresource and of the finalizer are modelled as always succeeding
(the pass records the status value it writes and whether it changed the
finalizer); JSON decode failures of response bodies are not modelled.
-/

/-- Go's `strings.Split(raw, "\n")` on a character list: split at every
newline, keeping empty segments (the result is never empty). -/
def splitLinesChars : List Char → List (List Char)
  | [] => [[]]
  | c :: rest =>
    let r := splitLinesChars rest
    if c = '\n' then [] :: r
    else
      match r with
      | h :: t => (c :: h) :: t
      | [] => [[c]]

/-- ASCII whitespace, as trimmed by Go's `strings.TrimSpace` (the Unicode
space classes beyond ASCII are not modelled). -/
def isGoSpace (c : Char) : Bool :=
  c = ' ' || c = '\t' || c = '\n' || c = '\x0b' || c = '\x0c' || c = '\r'

/-- Go's `strings.TrimSpace` on a character list. -/
def trimSpaceChars (cs : List Char) : List Char :=
  ((cs.dropWhile isGoSpace).reverse.dropWhile isGoSpace).reverse

/-- Whether a line is a comment line, i.e. `strings.HasPrefix(k, "#")`. -/
def startsWithHashChar : List Char → Bool
  | c :: _ => c = '#'
  | [] => false

/-- `SecretRef` of `api/v1alpha1`: a secret name plus a key inside it. -/
structure SecretRef where
  name : String := ""
  key : String := ""
deriving DecidableEq

/-- `ServerRef` of `api/v1alpha1`: name and (optional, empty = unset)
namespace of the referenced SftpGoServer. -/
structure ServerRef where
  name : String := ""
  nspace : String := ""
deriving DecidableEq

/-- `BandwidthLimits` of `api/v1alpha1`, in bytes/sec (0 = unlimited). -/
structure BandwidthLimits where
  upload : Int := 0
  download : Int := 0
deriving DecidableEq

/-- `Quota` of `api/v1alpha1`. -/
structure Quota where
  size : Int := 0
  files : Int := 0
deriving DecidableEq

/-- `VirtualFolder` of `api/v1alpha1`. -/
structure VirtualFolder where
  virtualPath : String := ""
  physicalPath : String := ""
  quota : Int := 0
deriving DecidableEq

/-- `SftpGoUserSpec` of `api/v1alpha1`, restricted to the fields read by the
embedded controller and client code (`Filters`, `Filesystem`, `RateLimits`,
`Protocols` and `MaxConcurrentTransfers` are declared in the CRD but never
read by any modelled function). -/
structure SftpGoUserSpec where
  username : String := ""
  password : String := ""
  passwordSecretRef : Option SecretRef := none
  publicKeys : List String := []
  publicKeysSecretRef : Option SecretRef := none
  email : String := ""
  status : String := ""
  homeDir : String := ""
  virtualFolders : List VirtualFolder := []
  permissions : List String := []
  quota : Option Quota := none
  bandwidthLimits : Option BandwidthLimits := none
  maxSessions : Int := 0
  allowedIP : List String := []
  deniedIP : List String := []
  groups : List String := []
  serverRef : ServerRef := {}
deriving DecidableEq

/-- `metav1.Condition` restricted to the fields the controller writes
(`lastTransitionTime` is managed by apimachinery and not modelled). -/
structure Condition where
  type : String := ""
  status : Bool := false
  reason : String := ""
  message : String := ""
deriving DecidableEq

/-- `meta.SetStatusCondition`: replace the condition with the same type, or
append when no condition of that type exists (at most one entry per type). -/
def setStatusCondition (conds : List Condition) (c : Condition) : List Condition :=
  if conds.any (fun x => x.type = c.type) then
    conds.map (fun x => if x.type = c.type then c else x)
  else conds ++ [c]

/-- `SftpGoUserStatus` of `api/v1alpha1`; `metav1.Time` is modelled as an
abstract clock tick (`Nat`). -/
structure SftpGoUserStatus where
  phase : String := ""
  userID : Int := 0
  conditions : List Condition := []
  lastSynced : Option Nat := none
deriving DecidableEq

/-- The object metadata the controllers read: identity, finalizer presence
and whether deletion has been requested (`DeletionTimestamp` non-zero). -/
structure ObjMeta where
  name : String := ""
  nspace : String := ""
  hasFinalizer : Bool := false
  deletionRequested : Bool := false
deriving DecidableEq

/-- An `SftpGoUser` object as observed by one reconcile pass. -/
structure SftpGoUser where
  meta : ObjMeta := {}
  spec : SftpGoUserSpec := {}
  status : SftpGoUserStatus := {}
deriving DecidableEq

/-- `SFTPConfig` of `api/v1alpha1`, restricted to the `Port` field (the only
field the embedded code reads). -/
structure SFTPConfig where
  port : Int := 0
deriving DecidableEq

/-- `HTTPConfig` of `api/v1alpha1`, restricted to the `Port` field. -/
structure HTTPConfig where
  port : Int := 0
deriving DecidableEq

/-- `SFTPGOConfig` of `api/v1alpha1` (protocol-specific overrides); the
`Common`, `FTP` and `WebDAV` sections are never read by the embedded code. -/
structure SFTPGOConfig where
  sftp : Option SFTPConfig := none
  http : Option HTTPConfig := none
deriving DecidableEq

/-- `SftpGoServerSpec` of `api/v1alpha1`, restricted to the fields read by
the embedded code.  `adminSecretRef` models `*corev1.LocalObjectReference`
as an optional secret name; `dataVolume` presence is kept as a flag (its
contents only feed child objects that are not needed by any claim). -/
structure SftpGoServerSpec where
  image : String := ""
  replicas : Option Int := none
  config : SFTPGOConfig := {}
  sftpPort : Int := 0
  webPort : Int := 0
  hasDataVolume : Bool := false
  storageBackend : String := ""
  adminSecretRef : Option String := none
deriving DecidableEq

/-- An `SftpGoServer` object as observed by the user reconciler. -/
structure SftpGoServer where
  meta : ObjMeta := {}
  spec : SftpGoServerSpec := {}
deriving DecidableEq

/-- The default image constant `sftpgoDefaultImage` of the controller. -/
def sftpgoDefaultImage : String := "docker.io/drakkan/sftpgo:latest"

/-- `SftpGoServerReconciler.applyDefaults`: substitute image, replica count,
SFTP port, web port and storage backend when the field holds its zero
value. -/
def applyDefaults (s : SftpGoServerSpec) : SftpGoServerSpec :=
  { s with
    image := if s.image = "" then sftpgoDefaultImage else s.image
    replicas := if s.replicas = none then some 1 else s.replicas
    sftpPort := if s.sftpPort = 0 then 2022 else s.sftpPort
    webPort := if s.webPort = 0 then 8080 else s.webPort
    storageBackend := if s.storageBackend = "" then "sqlite" else s.storageBackend }

/-- `SftpGoServerReconciler.getSFTPPort`: protocol-specific override
(`Config.SFTP.Port`, when present and positive) wins over the top-level
`SFTPPort`. -/
def getSFTPPort (spec : SftpGoServerSpec) : Int :=
  match spec.config.sftp with
  | some c => if c.port > 0 then c.port else spec.sftpPort
  | none => spec.sftpPort

/-- `SftpGoServerReconciler.getWebPort`: protocol-specific override
(`Config.HTTP.Port`, when present and positive) wins over the top-level
`WebPort`. -/
def getWebPort (spec : SftpGoServerSpec) : Int :=
  match spec.config.http with
  | some c => if c.port > 0 then c.port else spec.webPort
  | none => spec.webPort

/-- The sftpd binding port computed inside `sftpgoMinimalConfig`
(lines 263–269): 2022, overridden by a positive `SFTPPort`, overridden in
turn by a positive `Config.SFTP.Port`. -/
def configSFTPPort (spec : SftpGoServerSpec) : Int :=
  let p : Int := 2022
  let p := if spec.sftpPort > 0 then spec.sftpPort else p
  match spec.config.sftp with
  | some c => if c.port > 0 then c.port else p
  | none => p

/-- The fixed text of `sftpgoMinimalConfig` before the sftpd binding port. -/
def configHead : String :=
  "\x7b\n  \"sftpd\": \x7b\n    \"bindings\": [\x7b\"port\": "

/-- The fixed text of `sftpgoMinimalConfig` between the sftpd binding port
and the data-provider block. -/
def configMid : String :=
  ", \"address\": \"\", \"apply_proxy_config\": true\x7d],\n    \"max_auth_tries\": 0,\n    \"host_keys\": [],\n    \"keyboard_interactive_authentication\": true,\n    \"password_authentication\": true\n  \x7d,\n  \"data_provider\": \x7b\n    "

/-- The fixed tail of `sftpgoMinimalConfig`: it closes the data-provider
block and emits the entire httpd section, whose binding port is the literal
8080. -/
def configTail : String :=
  "\n  \x7d,\n  \"httpd\": \x7b\n    \"bindings\": [\x7b\"port\": 8080, \"address\": \"\", \"enable_web_admin\": true, \"enable_rest_api\": true\x7d]\n  \x7d\n\x7d"

/-- The `dataProvider` string built inside `sftpgoMinimalConfig`: driver and
database name, plus `create_default_admin` when an admin secret is
configured. -/
def dataProviderBlock (storageBackend : String) (createDefaultAdmin : Bool) : String :=
  let dataProvider :=
    "\"driver\": \"" ++ storageBackend ++ "\",\n    \"name\": \"/srv/sftpgo/sftpgo.db\""
  if createDefaultAdmin then dataProvider ++ ",\n    \"create_default_admin\": true"
  else dataProvider

/-- `sftpgoMinimalConfig`: the configuration artifact rendered into the
ConfigMap, as built by `fmt.Sprintf` in the Go source. -/
def sftpgoMinimalConfig (spec : SftpGoServerSpec) (createDefaultAdmin : Bool) : String :=
  configHead ++ toString (configSFTPPort spec) ++ configMid ++
    dataProviderBlock spec.storageBackend createDefaultAdmin ++ configTail

/-- `VF` of `internal/sftpgo/client.go` (virtual folder payload entry). -/
structure VF where
  virtualPath : String := ""
  mappedPath : String := ""
  quotaSize : Int := 0
  quotaFiles : Int := 0
deriving DecidableEq

/-- `GM` of `internal/sftpgo/client.go` (group membership payload entry). -/
structure GM where
  name : String := ""
  type : Int := 0
deriving DecidableEq

/-- `UserPayload` of `internal/sftpgo/client.go`: the JSON body exchanged
with the SFTPGo admin API.  Field defaults are the Go zero values. -/
structure UserPayload where
  id : Int := 0
  username : String := ""
  status : Int := 0
  email : String := ""
  password : String := ""
  publicKeys : List String := []
  homeDir : String := ""
  virtualFolders : List VF := []
  permissions : List (String × List String) := []
  quotaSize : Int := 0
  quotaFiles : Int := 0
  uploadBandwidth : Int := 0
  downloadBandwidth : Int := 0
  maxSessions : Int := 0
  allowedIP : List String := []
  deniedIP : List String := []
  groups : List GM := []
deriving DecidableEq

/-- The serialized `password` field of a payload under its
`json:"password,omitempty"` tag: an empty string is omitted from the JSON
object, a non-empty one is carried verbatim. -/
def passwordJSONField (p : UserPayload) : Option String :=
  if p.password = "" then none else some p.password

/-- `UserFromCR` of `internal/sftpgo/client.go`: build the API payload from
the CR spec plus the already-resolved password and public keys.  Bandwidth
limits are divided by 1024 with Go's truncated `int64` division
(`Int.tdiv`).  The Go code starts from the zero-valued payload and
conditionally assigns each optional field; here each such field is written
as `if <condition> then <value> else <zero value>`. -/
def UserFromCR (spec : SftpGoUserSpec) (password : String) (publicKeys : List String) :
    UserPayload :=
  let status : Int := if spec.status = "disabled" then 0 else 1
  let perm : List (String × List String) :=
    if spec.permissions.length > 0 then [("/", spec.permissions)] else [("/", ["*"])]
  { username := spec.username
    status := status
    email := spec.email
    homeDir := spec.homeDir
    permissions := perm
    password := if password ≠ "" then password else ""
    publicKeys := if publicKeys.length > 0 then publicKeys else []
    virtualFolders :=
      spec.virtualFolders.map fun (vf : VirtualFolder) =>
        { virtualPath := vf.virtualPath, mappedPath := vf.physicalPath
          quotaSize := vf.quota }
    quotaSize := match spec.quota with | some q => q.size | none => 0
    quotaFiles := match spec.quota with | some q => q.files | none => 0
    uploadBandwidth :=
      match spec.bandwidthLimits with
      | some b => Int.tdiv b.upload 1024
      | none => 0
    downloadBandwidth :=
      match spec.bandwidthLimits with
      | some b => Int.tdiv b.download 1024
      | none => 0
    maxSessions := if spec.maxSessions > 0 then spec.maxSessions else 0
    allowedIP := if spec.allowedIP.length > 0 then spec.allowedIP else []
    deniedIP := if spec.deniedIP.length > 0 then spec.deniedIP else []
    groups := spec.groups.map fun g => { name := g, type := 1 } }

/-- `ServiceURL` of `internal/sftpgo/client.go`: the fixed in-cluster DNS
convention for reaching a server's admin API. -/
def ServiceURL (name nspace : String) (port : Int) : String :=
  "http://" ++ name ++ "." ++ nspace ++ ".svc.cluster.local:" ++ toString port

/-- The observed outcome of one HTTP exchange: either a response (status
code plus decoded body) or a transport failure. -/
inductive HttpResult (α : Type) where
  | resp (code : Nat) (body : α)
  | transport (msg : String)
deriving DecidableEq

/-- `Client.GetUser`: 404 is absence (`nil, nil`), 200 is the decoded user,
any other status is the error `API returned <code>`. -/
def Client.getUser (r : HttpResult UserPayload) : Except String (Option UserPayload) :=
  match r with
  | .transport m => .error m
  | .resp code body =>
    if code = 404 then .ok none
    else if code ≠ 200 then .error ("API returned " ++ toString code)
    else .ok (some body)

/-- `Client.upsertUser` (shared by `CreateUser` and `UpdateUser`): 200 and
201 are success, everything else is the error `API returned <code>`. -/
def Client.upsertUser (r : HttpResult UserPayload) : Except String UserPayload :=
  match r with
  | .transport m => .error m
  | .resp code body =>
    if code ≠ 200 ∧ code ≠ 201 then .error ("API returned " ++ toString code)
    else .ok body

/-- `Client.DeleteUser`: only 200 is success; every other status code —
including 404 — is the error `API returned <code>`. -/
def Client.deleteUser (r : HttpResult Unit) : Except String Unit :=
  match r with
  | .transport m => .error m
  | .resp code _ =>
    if code ≠ 200 then .error ("API returned " ++ toString code)
    else .ok ()

/-- Result of an object-store `Get`: found, `IsNotFound`, or another
error. -/
inductive Lookup (α : Type) where
  | found (a : α)
  | notFound
  | err (msg : String)

/-- A Kubernetes secret as read by the controllers: its string-data map. -/
structure Secret where
  data : List (String × String) := []
deriving DecidableEq

/-- Go map access `secret.Data[key]`: the empty string when the key is
absent. -/
def secretValue (sec : Secret) (key : String) : String :=
  (((sec.data.find? fun kv => kv.1 = key).map fun kv => kv.2).getD "")

/-- The backend observations one user-reconcile pass can make: the server
lookup, secret lookups (by namespace and name), the HTTP responses of the
remote get/update/create/delete, and the current wall clock. -/
structure UserEnv where
  getServer : Lookup SftpGoServer
  getSecret : String → String → Lookup Secret
  getUserResp : HttpResult UserPayload
  updateResp : HttpResult UserPayload
  createResp : HttpResult UserPayload
  deleteResp : HttpResult Unit
  now : Nat

/-- `SftpGoUserReconciler.getAdminCredentials`: no reference (or an empty
name) yields empty credentials without error; otherwise the admin secret is
read from the server's namespace and its `username`/`password` entries are
returned (absent entries read as empty strings). -/
def getAdminCredentials (env : UserEnv) (server : SftpGoServer) :
    Except String (String × String) :=
  match server.spec.adminSecretRef with
  | none => .ok ("", "")
  | some name =>
    if name = "" then .ok ("", "")
    else
      match env.getSecret server.meta.nspace name with
      | .found sec => .ok (secretValue sec "username", secretValue sec "password")
      | .notFound => .error ("secret " ++ name ++ " not found")
      | .err m => .error m

/-- `SftpGoUserReconciler.resolvePassword`: inline password first, else the
referenced secret's key (a lookup error propagates), else empty. -/
def resolvePassword (env : UserEnv) (user : SftpGoUser) : Except String String :=
  if user.spec.password ≠ "" then .ok user.spec.password
  else
    match user.spec.passwordSecretRef with
    | some ref =>
      match env.getSecret user.meta.nspace ref.name with
      | .found sec => .ok (secretValue sec ref.key)
      | .notFound => .error ("secret " ++ ref.name ++ " not found")
      | .err m => .error m
    | none => .ok ""

/-- `SftpGoUserReconciler.resolvePublicKeys`: inline keys first, else the
referenced secret's key split into lines, trimmed, with blank lines and
`#`-comment lines dropped, else no keys. -/
def resolvePublicKeys (env : UserEnv) (user : SftpGoUser) : Except String (List String) :=
  if user.spec.publicKeys.length > 0 then .ok user.spec.publicKeys
  else
    match user.spec.publicKeysSecretRef with
    | some ref =>
      match env.getSecret user.meta.nspace ref.name with
      | .found sec =>
        let raw := secretValue sec ref.key
        let keys := (splitLinesChars raw.data).map trimSpaceChars
        .ok (keys.filterMap fun k =>
          if k ≠ [] ∧ ¬ startsWithHashChar k then some (String.mk k) else none)
      | .notFound => .error ("secret " ++ ref.name ++ " not found")
      | .err m => .error m
    | none => .ok []

/-- The payload sent on the update path of `SftpGoUserReconciler.Reconcile`
(lines 641–646): the built payload, carrying the remote numeric identifier
of the existing user, with the password cleared when no password was
resolved ("Don't overwrite password if not provided"). -/
def updatePayload (base : UserPayload) (userPassword : String) (ex : UserPayload) :
    UserPayload :=
  { base with
    id := ex.id
    password := if userPassword = "" then "" else base.password }

/-- A remote admin-API call issued during a pass. -/
inductive RemoteCall where
  | getUser (username : String)
  | createUser (p : UserPayload)
  | updateUser (username : String) (p : UserPayload)
  | deleteUser (username : String)
deriving DecidableEq

/-- `SftpGoUserReconciler.deleteUserFromSFTPGO`: server gone ⇒ nothing to
delete; credential error or empty credentials ⇒ skip the delete; otherwise
issue the remote delete and return its result.  The second component lists
the remote calls issued. -/
def deleteUserFromSFTPGO (env : UserEnv) (user : SftpGoUser) :
    Except String Unit × List RemoteCall :=
  match env.getServer with
  | .notFound => (.ok (), [])
  | .err m => (.error m, [])
  | .found server =>
    match getAdminCredentials env server with
    | .error _ => (.ok (), [])
    | .ok (u, p) =>
      if u = "" ∨ p = "" then (.ok (), [])
      else (Client.deleteUser env.deleteResp, [.deleteUser user.spec.username])

/-- The observable outcome of one user-reconcile pass: the returned error
value, whether a requeue was requested, the status value written back, the
remote calls issued, and the finalizer edits performed. -/
structure Outcome where
  res : Except String Unit
  requeue : Bool := false
  status : SftpGoUserStatus
  calls : List RemoteCall := []
  finalizerAdded : Bool := false
  finalizerRemoved : Bool := false

/-- `SftpGoUserReconciler.Reconcile` from the point where the `SftpGoUser`
object has been fetched: finalizer installation, the deletion path, server
and credential resolution, password/public-key resolution, the remote
get-then-create-or-update, and the status write-back. -/
def reconcileUser (env : UserEnv) (user : SftpGoUser) : Outcome :=
  if user.meta.hasFinalizer = false then
    { res := .ok (), requeue := true, status := user.status, finalizerAdded := true }
  else if user.meta.deletionRequested = true then
    match deleteUserFromSFTPGO env user with
    | (.error m, cs) => { res := .error m, status := user.status, calls := cs }
    | (.ok _, cs) =>
      { res := .ok (), status := user.status, calls := cs, finalizerRemoved := true }
  else
    let ns := if user.spec.serverRef.nspace = "" then user.meta.nspace
      else user.spec.serverRef.nspace
    match env.getServer with
    | .notFound =>
      { res := .ok ()
        status :=
          { user.status with
            conditions := setStatusCondition user.status.conditions
              { type := "Ready", status := false, reason := "ServerNotFound"
                message := "SftpGoServer " ++ user.spec.serverRef.name ++
                  " not found in namespace " ++ ns }
            phase := "Error" } }
    | .err m => { res := .error m, status := user.status }
    | .found server =>
      match getAdminCredentials env server with
      | .error m =>
        { res := .error m
          status :=
            { user.status with
              conditions := setStatusCondition user.status.conditions
                { type := "Ready", status := false, reason := "AuthError", message := m }
              phase := "Error" } }
      | .ok (adminUsername, adminPassword) =>
        if adminUsername = "" ∨ adminPassword = "" then
          { res := .ok ()
            status :=
              { user.status with
                conditions := setStatusCondition user.status.conditions
                  { type := "Ready", status := false, reason := "AuthNotConfigured"
                    message := "SftpGoServer AdminSecretRef not configured - cannot manage users via API" }
                phase := "Pending" } }
        else
          match resolvePassword env user with
          | .error m => { res := .error m, status := user.status }
          | .ok userPassword =>
            match resolvePublicKeys env user with
            | .error m => { res := .error m, status := user.status }
            | .ok publicKeys =>
              let payload := UserFromCR user.spec userPassword publicKeys
              match Client.getUser env.getUserResp with
              | .error m =>
                { res := .error m
                  status :=
                    { user.status with
                      conditions := setStatusCondition user.status.conditions
                        { type := "Ready", status := false, reason := "APIError", message := m }
                      phase := "Error" }
                  calls := [.getUser user.spec.username] }
              | .ok existing =>
                match existing with
                | some ex =>
                  let payload := updatePayload payload userPassword ex
                  match Client.upsertUser env.updateResp with
                  | .error m =>
                    { res := .error m
                      status :=
                        { user.status with
                          conditions := setStatusCondition user.status.conditions
                            { type := "Ready", status := false, reason := "APIError", message := m }
                          phase := "Error" }
                      calls := [.getUser user.spec.username,
                        .updateUser user.spec.username payload] }
                  | .ok _ =>
                    { res := .ok ()
                      status :=
                        { user.status with
                          conditions := setStatusCondition user.status.conditions
                            { type := "Ready", status := true, reason := "Synced", message := "" }
                          phase := "Synced"
                          lastSynced := some env.now
                          userID := ex.id }
                      calls := [.getUser user.spec.username,
                        .updateUser user.spec.username payload] }
                | none =>
                  if userPassword = "" ∧ publicKeys = [] then
                    { res := .ok ()
                      status :=
                        { user.status with
                          conditions := setStatusCondition user.status.conditions
                            { type := "Ready", status := false, reason := "ValidationError"
                              message := "New user requires either password or publicKeys" }
                          phase := "Error" }
                      calls := [.getUser user.spec.username] }
                  else
                    match Client.upsertUser env.createResp with
                    | .error m =>
                      { res := .error m
                        status :=
                          { user.status with
                            conditions := setStatusCondition user.status.conditions
                              { type := "Ready", status := false, reason := "APIError", message := m }
                            phase := "Error" }
                        calls := [.getUser user.spec.username, .createUser payload] }
                    | .ok _ =>
                      { res := .ok ()
                        status :=
                          { user.status with
                            conditions := setStatusCondition user.status.conditions
                              { type := "Ready", status := true, reason := "Synced", message := "" }
                            phase := "Synced"
                            lastSynced := some env.now }
                        calls := [.getUser user.spec.username, .createUser payload] }

/-- Admin secret fixture: `username`/`password` entries for the admin API. -/
def adminSecret : Secret := { data := [("username", "root"), ("password", "pw")] }

/-- Secret store fixture: only the secret `adm` in namespace `ns` exists. -/
def secretsFixture : String → String → Lookup Secret := fun nspace name =>
  if nspace = "ns" ∧ name = "adm" then Lookup.found adminSecret else Lookup.notFound

/-- Server fixture `srv` in namespace `ns` with a configured admin secret. -/
def serverFixture : SftpGoServer :=
  { meta := { name := "srv", nspace := "ns" }
    spec := { adminSecretRef := some "adm" } }

/-- A user record already stored by the remote service, with identifier 7. -/
def remoteAlice : UserPayload := { id := 7, username := "alice", homeDir := "/home/alice" }

/-- The remote record the service returns when creating `bob`: the service
assigned it identifier 42. -/
def createdBob : UserPayload := { id := 42, username := "bob", homeDir := "/home/bob" }

/-- A UserResource with no password and one inline public key. -/
def aliceUser : SftpGoUser :=
  { meta := { name := "alice", nspace := "ns", hasFinalizer := true }
    spec := { username := "alice", homeDir := "/home/alice"
              publicKeys := ["ssh-ed25519 AAAA"], serverRef := { name := "srv" } } }

/-- Environment for an update pass: the remote user `alice` exists and the
remote update succeeds. -/
def envUpdate : UserEnv :=
  { getServer := Lookup.found serverFixture
    getSecret := secretsFixture
    getUserResp := HttpResult.resp 200 remoteAlice
    updateResp := HttpResult.resp 200 remoteAlice
    createResp := HttpResult.transport "unused"
    deleteResp := HttpResult.transport "unused"
    now := 5 }

/-- A UserResource with neither password nor public keys. -/
def carolUser : SftpGoUser :=
  { meta := { name := "carol", nspace := "ns", hasFinalizer := true }
    spec := { username := "carol", homeDir := "/home/carol", serverRef := { name := "srv" } } }

/-- Environment where the remote user does not exist (404 on the get). -/
def envAbsent : UserEnv := { envUpdate with getUserResp := HttpResult.resp 404 {} }

/-- A UserResource with an inline password, for the create path. -/
def bobUser : SftpGoUser :=
  { meta := { name := "bob", nspace := "ns", hasFinalizer := true }
    spec := { username := "bob", password := "secret", homeDir := "/home/bob"
              serverRef := { name := "srv" } } }

/-- Environment for a create pass: the remote get yields 404 and the create
succeeds with status 201, the service assigning identifier 42. -/
def envCreate : UserEnv :=
  { envUpdate with getUserResp := HttpResult.resp 404 {}, createResp := HttpResult.resp 201 createdBob }

/-- A UserResource whose password is referenced from a secret that does not
exist. -/
def daveUser : SftpGoUser :=
  { meta := { name := "dave", nspace := "ns", hasFinalizer := true }
    spec := { username := "dave", homeDir := "/home/dave"
              passwordSecretRef := some { name := "dave-pw", key := "password" }
              serverRef := { name := "srv" } } }

/-- A UserResource whose deletion has been requested. -/
def goneUser : SftpGoUser :=
  { meta := { name := "erin", nspace := "ns", hasFinalizer := true, deletionRequested := true }
    spec := { username := "erin", homeDir := "/home/erin", serverRef := { name := "srv" } } }

/-- Environment where the referenced SftpGoServer no longer exists. -/
def envServerGone : UserEnv := { envUpdate with getServer := Lookup.notFound }

/-- An entirely unset server spec (every field at its zero value). -/
def emptyServerSpec : SftpGoServerSpec := {}

/-- A user spec with bandwidth limits 1048576 / 2048 bytes/sec. -/
def bwSpec : SftpGoUserSpec :=
  { username := "bw", homeDir := "/home/bw"
    bandwidthLimits := some { upload := 1048576, download := 2048 } }

/-- A user spec with small positive bandwidth limits (512 / 1000 bytes/sec,
both below 1024). -/
def bwSmallSpec : SftpGoUserSpec :=
  { username := "bwsmall", homeDir := "/home/bwsmall"
    bandwidthLimits := some { upload := 512, download := 1000 } }

/-- The condition passed to `setStatusCondition` is always present in the
result (it replaces the entry of the same type, or is appended). -/
theorem mem_setStatusCondition (conds : List Condition) (c : Condition) :
    c ∈ setStatusCondition conds c := by
  unfold setStatusCondition
  split
  case isTrue h =>
    rcases List.any_eq_true.mp h with ⟨x, hx, hxt⟩
    exact List.mem_map.mpr ⟨x, hx, by simp [of_decide_eq_true hxt]⟩
  case isFalse h => simp

/-- C1: on a reconcile pass where the remote user already exists and the
resolved password is empty, the only mutating remote call is an update whose
payload carries the existing remote numeric identifier and whose serialized
`password` field (tag `json:"password,omitempty"`) is omitted — the stored
credential is never overwritten with an empty value. -/
theorem updateWithEmptyPasswordOmitsCredential
    (env : UserEnv) (user : SftpGoUser) (server : SftpGoServer)
    (au ap : String) (keys : List String) (ex : UserPayload)
    (hfin : user.meta.hasFinalizer = true)
    (hdel : user.meta.deletionRequested = false)
    (hsrv : env.getServer = Lookup.found server)
    (hcred : getAdminCredentials env server = Except.ok (au, ap))
    (hau : au ≠ "") (hap : ap ≠ "")
    (hpw : resolvePassword env user = Except.ok "")
    (hkeys : resolvePublicKeys env user = Except.ok keys)
    (hget : Client.getUser env.getUserResp = Except.ok (some ex)) :
    (reconcileUser env user).calls =
      [RemoteCall.getUser user.spec.username,
       RemoteCall.updateUser user.spec.username
         (updatePayload (UserFromCR user.spec "" keys) "" ex)] ∧
    passwordJSONField (updatePayload (UserFromCR user.spec "" keys) "" ex) = none ∧
    (updatePayload (UserFromCR user.spec "" keys) "" ex).id = ex.id := by
  refine ⟨?_, ?_, rfl⟩
  · cases hupd : Client.upsertUser env.updateResp <;>
      simp [reconcileUser, hfin, hdel, hsrv, hcred, hau, hap, hpw, hkeys, hget, hupd]
  · simp [updatePayload, passwordJSONField]

/-- C2: on a reconcile pass where the remote user does not exist and both
the resolved password and the resolved public keys are empty, the pass sets
condition reason `ValidationError` with phase `Error`, returns success (no
requeue storm), and issues no mutating remote call (only the existence
check). -/
theorem newUserWithoutCredentialsRejected
    (env : UserEnv) (user : SftpGoUser) (server : SftpGoServer) (au ap : String)
    (hfin : user.meta.hasFinalizer = true)
    (hdel : user.meta.deletionRequested = false)
    (hsrv : env.getServer = Lookup.found server)
    (hcred : getAdminCredentials env server = Except.ok (au, ap))
    (hau : au ≠ "") (hap : ap ≠ "")
    (hpw : resolvePassword env user = Except.ok "")
    (hkeys : resolvePublicKeys env user = Except.ok [])
    (hget : Client.getUser env.getUserResp = Except.ok none) :
    (reconcileUser env user).res = Except.ok () ∧
    (reconcileUser env user).status.phase = "Error" ∧
    ({ type := "Ready", status := false, reason := "ValidationError",
       message := "New user requires either password or publicKeys" } : Condition) ∈
      (reconcileUser env user).status.conditions ∧
    (reconcileUser env user).calls = [RemoteCall.getUser user.spec.username] := by
  refine ⟨?_, ?_, ?_, ?_⟩
  · simp [reconcileUser, hfin, hdel, hsrv, hcred, hau, hap, hpw, hkeys, hget]
  · simp [reconcileUser, hfin, hdel, hsrv, hcred, hau, hap, hpw, hkeys, hget]
  · simp only [reconcileUser, hfin, hdel, hsrv, hcred, hau, hap, hpw, hkeys, hget]
    simp [hau, hap]
    exact mem_setStatusCondition _ _
  · simp [reconcileUser, hfin, hdel, hsrv, hcred, hau, hap, hpw, hkeys, hget]

/-- C1 witness: the concrete update pass for `alice` (existing remote id 7,
empty resolved password) sends exactly one update whose password field is
omitted and whose id is 7. -/
theorem updateWithEmptyPasswordOmitsCredentialWitness :
    (reconcileUser envUpdate aliceUser).calls =
      [RemoteCall.getUser "alice",
       RemoteCall.updateUser "alice"
         (updatePayload (UserFromCR aliceUser.spec "" ["ssh-ed25519 AAAA"]) "" remoteAlice)] ∧
    passwordJSONField
      (updatePayload (UserFromCR aliceUser.spec "" ["ssh-ed25519 AAAA"]) "" remoteAlice) = none ∧
    (updatePayload (UserFromCR aliceUser.spec "" ["ssh-ed25519 AAAA"]) "" remoteAlice).id =
      remoteAlice.id :=
  updateWithEmptyPasswordOmitsCredential envUpdate aliceUser serverFixture "root" "pw"
    ["ssh-ed25519 AAAA"] remoteAlice rfl rfl rfl rfl (by decide) (by decide) rfl rfl rfl

/-- C2 witness: the concrete pass for `carol` (no remote user, no password,
no keys) ends in `ValidationError`/`Error` with only the existence check
issued. -/
theorem newUserWithoutCredentialsRejectedWitness :
    (reconcileUser envAbsent carolUser).res = Except.ok () ∧
    (reconcileUser envAbsent carolUser).status.phase = "Error" ∧
    ({ type := "Ready", status := false, reason := "ValidationError",
       message := "New user requires either password or publicKeys" } : Condition) ∈
      (reconcileUser envAbsent carolUser).status.conditions ∧
    (reconcileUser envAbsent carolUser).calls = [RemoteCall.getUser "carol"] :=
  newUserWithoutCredentialsRejected envAbsent carolUser serverFixture "root" "pw"
    rfl rfl rfl rfl (by decide) (by decide) rfl rfl rfl

/-- C3 counterexample: when the remote service answers 404 to the delete,
`Client.DeleteUser` returns the error `API returned 404`, not success. -/
theorem deleteUserErrorsOnNotFound :
    Client.deleteUser (HttpResult.resp 404 ()) = Except.error "API returned 404" ∧
    Client.deleteUser (HttpResult.resp 404 ()) ≠ Except.ok () := by
  refine ⟨rfl, ?_⟩
  intro h
  simp [Client.deleteUser] at h

/-- C3 amended: `Client.DeleteUser` treats only HTTP 200 as success; every
other status code — including 404 for an absent user — yields the error
`API returned <code>`, so the delete is not idempotent on not-found. -/
theorem deleteUserSucceedsOnlyOn200 (code : Nat) :
    Client.deleteUser (HttpResult.resp code ()) =
      (if code = 200 then Except.ok ()
       else Except.error ("API returned " ++ toString code)) := by
  by_cases h : code = 200 <;> simp [Client.deleteUser, h]

/-- C4: on a deletion pass, when the referenced server is gone, or admin
credentials cannot be resolved, or they resolve to an empty username or
password, the pass succeeds, removes the finalizer, and issues no remote
call at all. -/
theorem deletionBestEffortNeverStuck
    (env : UserEnv) (user : SftpGoUser)
    (hfin : user.meta.hasFinalizer = true)
    (hdel : user.meta.deletionRequested = true)
    (h : env.getServer = Lookup.notFound ∨
      ∃ server, env.getServer = Lookup.found server ∧
        ((∃ m, getAdminCredentials env server = Except.error m) ∨
         ∃ u p, getAdminCredentials env server = Except.ok (u, p) ∧ (u = "" ∨ p = ""))) :
    (reconcileUser env user).res = Except.ok () ∧
    (reconcileUser env user).finalizerRemoved = true ∧
    (reconcileUser env user).calls = [] := by
  rcases h with h | ⟨server, hsrv, ⟨m, hm⟩ | ⟨u, p, hup, hempty⟩⟩
  · refine ⟨?_, ?_, ?_⟩ <;> simp [reconcileUser, deleteUserFromSFTPGO, hfin, hdel, h]
  · refine ⟨?_, ?_, ?_⟩ <;> simp [reconcileUser, deleteUserFromSFTPGO, hfin, hdel, hsrv, hm]
  · rcases hempty with he | he <;>
      refine ⟨?_, ?_, ?_⟩ <;>
      simp [reconcileUser, deleteUserFromSFTPGO, hfin, hdel, hsrv, hup, he]

/-- C4 witness: deleting `erin` while the referenced server no longer exists
succeeds without any remote call and removes the finalizer. -/
theorem deletionBestEffortNeverStuckWitness :
    (reconcileUser envServerGone goneUser).res = Except.ok () ∧
    (reconcileUser envServerGone goneUser).finalizerRemoved = true ∧
    (reconcileUser envServerGone goneUser).calls = [] :=
  deletionBestEffortNeverStuck envServerGone goneUser rfl rfl (Or.inl rfl)

/-- C5: defaulting substitutes image, replica count 1, SFTP port 2022, web
port 8080 and storage backend `sqlite` exactly when the corresponding field
is unset (zero-valued), and the resolved SFTP/web port equals the
protocol-specific override (`Config.SFTP.Port` / `Config.HTTP.Port`, when
present and positive) in preference to the top-level port field. -/
theorem serverDefaultingPolicy (s : SftpGoServerSpec) :
    ((s.image = "" → (applyDefaults s).image = sftpgoDefaultImage) ∧
     (s.image ≠ "" → (applyDefaults s).image = s.image)) ∧
    ((s.replicas = none → (applyDefaults s).replicas = some 1) ∧
     (s.replicas ≠ none → (applyDefaults s).replicas = s.replicas)) ∧
    ((s.sftpPort = 0 → (applyDefaults s).sftpPort = 2022) ∧
     (s.sftpPort ≠ 0 → (applyDefaults s).sftpPort = s.sftpPort)) ∧
    ((s.webPort = 0 → (applyDefaults s).webPort = 8080) ∧
     (s.webPort ≠ 0 → (applyDefaults s).webPort = s.webPort)) ∧
    ((s.storageBackend = "" → (applyDefaults s).storageBackend = "sqlite") ∧
     (s.storageBackend ≠ "" → (applyDefaults s).storageBackend = s.storageBackend)) ∧
    ((∀ c : SFTPConfig, (applyDefaults s).config.sftp = some c → 0 < c.port →
        getSFTPPort (applyDefaults s) = c.port) ∧
     (∀ c : SFTPConfig, (applyDefaults s).config.sftp = some c → ¬ 0 < c.port →
        getSFTPPort (applyDefaults s) = (applyDefaults s).sftpPort) ∧
     ((applyDefaults s).config.sftp = none →
        getSFTPPort (applyDefaults s) = (applyDefaults s).sftpPort)) ∧
    ((∀ c : HTTPConfig, (applyDefaults s).config.http = some c → 0 < c.port →
        getWebPort (applyDefaults s) = c.port) ∧
     (∀ c : HTTPConfig, (applyDefaults s).config.http = some c → ¬ 0 < c.port →
        getWebPort (applyDefaults s) = (applyDefaults s).webPort) ∧
     ((applyDefaults s).config.http = none →
        getWebPort (applyDefaults s) = (applyDefaults s).webPort)) := by
  refine ⟨⟨fun h => by simp [applyDefaults, h], fun h => by simp [applyDefaults, h]⟩,
    ⟨fun h => by simp [applyDefaults, h], fun h => by simp [applyDefaults, h]⟩,
    ⟨fun h => by simp [applyDefaults, h], fun h => by simp [applyDefaults, h]⟩,
    ⟨fun h => by simp [applyDefaults, h], fun h => by simp [applyDefaults, h]⟩,
    ⟨fun h => by simp [applyDefaults, h], fun h => by simp [applyDefaults, h]⟩,
    ⟨?_, ?_, ?_⟩, ⟨?_, ?_, ?_⟩⟩
  · intro c hc hpos
    simp [applyDefaults] at hc
    simp [getSFTPPort, applyDefaults, hc, hpos]
  · intro c hc hpos
    simp [applyDefaults] at hc
    simp [getSFTPPort, applyDefaults, hc, hpos]
  · intro h
    simp [applyDefaults] at h
    simp [getSFTPPort, applyDefaults, h]
  · intro c hc hpos
    simp [applyDefaults] at hc
    simp [getWebPort, applyDefaults, hc, hpos]
  · intro c hc hpos
    simp [applyDefaults] at hc
    simp [getWebPort, applyDefaults, hc, hpos]
  · intro h
    simp [applyDefaults] at h
    simp [getWebPort, applyDefaults, h]

/-- C5 witness: with every field unset, defaulting yields SFTP port 2022,
web port 8080, storage backend `sqlite`, replica count 1 and the default
image, and the resolved ports equal the defaulted top-level ports. -/
theorem serverDefaultingPolicyWitness :
    (applyDefaults emptyServerSpec).sftpPort = 2022 ∧
    (applyDefaults emptyServerSpec).webPort = 8080 ∧
    (applyDefaults emptyServerSpec).storageBackend = "sqlite" ∧
    (applyDefaults emptyServerSpec).replicas = some 1 ∧
    (applyDefaults emptyServerSpec).image = sftpgoDefaultImage ∧
    getSFTPPort (applyDefaults emptyServerSpec) = 2022 ∧
    getWebPort (applyDefaults emptyServerSpec) = 8080 := by
  have h := serverDefaultingPolicy emptyServerSpec
  refine ⟨h.2.2.1.1 rfl, h.2.2.2.1.1 rfl, h.2.2.2.2.1.1 rfl, h.2.1.1 rfl, h.1.1 rfl, ?_, ?_⟩
  · exact (h.2.2.2.2.2.1.2.2 rfl).trans (h.2.2.1.1 rfl)
  · exact (h.2.2.2.2.2.2.2.2 rfl).trans (h.2.2.2.1.1 rfl)

/-- C6: with bandwidth limits set, the payload's upload/download bandwidth
is the spec value divided by 1024 with Go's truncated division (bytes/sec
to KB/s); in particular an upload limit of 1048576 bytes/sec becomes 1024
KB/s. -/
theorem bandwidthUnitConversion
    (spec : SftpGoUserSpec) (pw : String) (keys : List String) (bl : BandwidthLimits)
    (h : spec.bandwidthLimits = some bl) :
    (UserFromCR spec pw keys).uploadBandwidth = Int.tdiv bl.upload 1024 ∧
    (UserFromCR spec pw keys).downloadBandwidth = Int.tdiv bl.download 1024 ∧
    (bl.upload = 1048576 → (UserFromCR spec pw keys).uploadBandwidth = 1024) := by
  refine ⟨by simp [UserFromCR, h], by simp [UserFromCR, h], ?_⟩
  intro hu
  simp [UserFromCR, h, hu]
  decide

/-- C6 witness: upload 1048576 bytes/sec becomes 1024 KB/s and download
2048 bytes/sec becomes 2 KB/s. -/
theorem bandwidthUnitConversionWitness :
    (UserFromCR bwSpec "" []).uploadBandwidth = 1024 ∧
    (UserFromCR bwSpec "" []).downloadBandwidth = 2 := by
  have h := bandwidthUnitConversion bwSpec "" []
    { upload := 1048576, download := 2048 } rfl
  exact ⟨h.2.2 rfl, h.2.1.trans (by decide)⟩

/-- C9: the bytes/sec → KB/s conversion truncates toward zero, so any
positive limit below 1024 bytes/sec produces a payload bandwidth of 0 —
which the remote service's convention reads as unlimited (the CRD comments
document `0 = unlimited`). -/
theorem smallBandwidthTruncatesToZero
    (spec : SftpGoUserSpec) (pw : String) (keys : List String) (bl : BandwidthLimits)
    (h : spec.bandwidthLimits = some bl) :
    (0 < bl.upload → bl.upload < 1024 → (UserFromCR spec pw keys).uploadBandwidth = 0) ∧
    (0 < bl.download → bl.download < 1024 →
      (UserFromCR spec pw keys).downloadBandwidth = 0) := by
  constructor <;> intro h0 h1 <;> simp [UserFromCR, h] <;>
    rw [Int.tdiv_eq_ediv (le_of_lt h0) (by norm_num)] <;>
    exact Int.ediv_eq_zero_of_lt (le_of_lt h0) h1

/-- C9 witness: upload 512 bytes/sec and download 1000 bytes/sec both map
to payload bandwidth 0. -/
theorem smallBandwidthTruncatesToZeroWitness :
    (UserFromCR bwSmallSpec "" []).uploadBandwidth = 0 ∧
    (UserFromCR bwSmallSpec "" []).downloadBandwidth = 0 := by
  have h := smallBandwidthTruncatesToZero bwSmallSpec "" []
    { upload := 512, download := 1000 } rfl
  exact ⟨h.1 (by decide) (by decide), h.2 (by decide) (by decide)⟩

/-- C7 counterexample: a fully successful create pass for `bob` (remote get
404, create succeeds with 201 and the service assigns identifier 42) writes
phase `Synced` but leaves the stored remote identifier at its previous
value 0 — the identifier of the created user is not recorded. -/
theorem createPathDropsRemoteIdentifier :
    (reconcileUser envCreate bobUser).res = Except.ok () ∧
    (reconcileUser envCreate bobUser).status.phase = "Synced" ∧
    Client.upsertUser envCreate.createResp = Except.ok createdBob ∧
    createdBob.id = 42 ∧
    (reconcileUser envCreate bobUser).status.userID = 0 := by
  exact ⟨rfl, rfl, rfl, rfl, rfl⟩

/-- C7 amended: every fully successful pass writes condition `Ready=true`
(reason `Synced`), phase `Synced` and a last-synced timestamp; the remote
numeric identifier is recorded only on the update path (copied from the
previously fetched remote record) — on the create path the stored
identifier is left unchanged and the identifier assigned by the remote
service is not recorded. -/
theorem successWritesSyncedStatus
    (env : UserEnv) (user : SftpGoUser) (server : SftpGoServer)
    (au ap pw : String) (keys : List String) (exOpt : Option UserPayload)
    (hfin : user.meta.hasFinalizer = true)
    (hdel : user.meta.deletionRequested = false)
    (hsrv : env.getServer = Lookup.found server)
    (hcred : getAdminCredentials env server = Except.ok (au, ap))
    (hau : au ≠ "") (hap : ap ≠ "")
    (hpw : resolvePassword env user = Except.ok pw)
    (hkeys : resolvePublicKeys env user = Except.ok keys)
    (hget : Client.getUser env.getUserResp = Except.ok exOpt)
    (hnontrivial : exOpt = none → ¬ (pw = "" ∧ keys = []))
    (hup : ∀ ex, exOpt = some ex → ∃ v, Client.upsertUser env.updateResp = Except.ok v)
    (hcr : exOpt = none → ∃ v, Client.upsertUser env.createResp = Except.ok v) :
    (reconcileUser env user).res = Except.ok () ∧
    (reconcileUser env user).status.phase = "Synced" ∧
    ({ type := "Ready", status := true, reason := "Synced", message := "" } : Condition) ∈
      (reconcileUser env user).status.conditions ∧
    (reconcileUser env user).status.lastSynced = some env.now ∧
    (reconcileUser env user).status.userID =
      (match exOpt with
       | some ex => ex.id
       | none => user.status.userID) := by
  cases exOpt with
  | some ex =>
    obtain ⟨v, hv⟩ := hup ex rfl
    refine ⟨?_, ?_, ?_, ?_, ?_⟩ <;>
      simp [reconcileUser, hfin, hdel, hsrv, hcred, hau, hap, hpw, hkeys, hget, hv]
    exact mem_setStatusCondition _ _
  | none =>
    obtain ⟨v, hv⟩ := hcr rfl
    have hnt := hnontrivial rfl
    refine ⟨?_, ?_, ?_, ?_, ?_⟩ <;>
      simp [reconcileUser, hfin, hdel, hsrv, hcred, hau, hap, hpw, hkeys, hget, hv, hnt]
    exact mem_setStatusCondition _ _

/-- C7 amended witness: the successful update pass for `alice` records the
existing remote identifier 7, and the successful create pass for `bob`
leaves the stored identifier unchanged at 0. -/
theorem successWritesSyncedStatusWitness :
    ((reconcileUser envUpdate aliceUser).status.phase = "Synced" ∧
     (reconcileUser envUpdate aliceUser).status.userID = remoteAlice.id) ∧
    ((reconcileUser envCreate bobUser).status.phase = "Synced" ∧
     (reconcileUser envCreate bobUser).status.userID = bobUser.status.userID) := by
  have ha := successWritesSyncedStatus envUpdate aliceUser serverFixture "root" "pw" ""
    ["ssh-ed25519 AAAA"] (some remoteAlice) rfl rfl rfl rfl (by decide) (by decide)
    rfl rfl rfl (fun h => Option.noConfusion h)
    (fun ex h => ⟨remoteAlice, by cases h; rfl⟩) (fun h => Option.noConfusion h)
  have hb := successWritesSyncedStatus envCreate bobUser serverFixture "root" "pw" "secret"
    [] none rfl rfl rfl rfl (by decide) (by decide)
    rfl rfl rfl (fun _ hcontra => by simp at hcontra)
    (fun ex h => Option.noConfusion h) (fun _ => ⟨createdBob, rfl⟩)
  exact ⟨⟨ha.2.1, ha.2.2.2.2⟩, ⟨hb.2.1, hb.2.2.2.2⟩⟩

/-- C8 counterexample: when resolving `dave`'s password from its (missing)
secret fails, the pass returns the error but the condition list and the
whole status are left untouched — no reason code is written before control
returns. -/
theorem resolverFailureSkipsConditionUpdate :
    (reconcileUser envUpdate daveUser).res = Except.error "secret dave-pw not found" ∧
    (reconcileUser envUpdate daveUser).status = daveUser.status ∧
    daveUser.status.conditions = [] := by
  exact ⟨rfl, rfl, rfl⟩

/-- C8 amended: failures detected after reference resolution update the
condition list with a stable reason code before returning — `ServerNotFound`
(phase `Error`), `AuthError` (`Error`), `AuthNotConfigured` (`Pending`),
`APIError` on the remote get and on the remote update/create (`Error`), and
`ValidationError` is covered separately — but a transient server-lookup
error, and any failure resolving the user password or public keys from a
secret, return the error without touching the condition list or phase. -/
theorem failurePathsConditionPolicy :
    (∀ (env : UserEnv) (user : SftpGoUser),
      user.meta.hasFinalizer = true → user.meta.deletionRequested = false →
      env.getServer = Lookup.notFound →
      (reconcileUser env user).res = Except.ok () ∧
      (reconcileUser env user).status.phase = "Error" ∧
      ∃ c ∈ (reconcileUser env user).status.conditions,
        c.type = "Ready" ∧ c.status = false ∧ c.reason = "ServerNotFound") ∧
    (∀ (env : UserEnv) (user : SftpGoUser) (m : String),
      user.meta.hasFinalizer = true → user.meta.deletionRequested = false →
      env.getServer = Lookup.err m →
      (reconcileUser env user).res = Except.error m ∧
      (reconcileUser env user).status = user.status) ∧
    (∀ (env : UserEnv) (user : SftpGoUser) (server : SftpGoServer) (m : String),
      user.meta.hasFinalizer = true → user.meta.deletionRequested = false →
      env.getServer = Lookup.found server →
      getAdminCredentials env server = Except.error m →
      (reconcileUser env user).res = Except.error m ∧
      (reconcileUser env user).status.phase = "Error" ∧
      ∃ c ∈ (reconcileUser env user).status.conditions,
        c.type = "Ready" ∧ c.status = false ∧ c.reason = "AuthError") ∧
    (∀ (env : UserEnv) (user : SftpGoUser) (server : SftpGoServer) (au ap : String),
      user.meta.hasFinalizer = true → user.meta.deletionRequested = false →
      env.getServer = Lookup.found server →
      getAdminCredentials env server = Except.ok (au, ap) →
      (au = "" ∨ ap = "") →
      (reconcileUser env user).res = Except.ok () ∧
      (reconcileUser env user).status.phase = "Pending" ∧
      ∃ c ∈ (reconcileUser env user).status.conditions,
        c.type = "Ready" ∧ c.status = false ∧ c.reason = "AuthNotConfigured") ∧
    (∀ (env : UserEnv) (user : SftpGoUser) (server : SftpGoServer) (au ap m : String),
      user.meta.hasFinalizer = true → user.meta.deletionRequested = false →
      env.getServer = Lookup.found server →
      getAdminCredentials env server = Except.ok (au, ap) → au ≠ "" → ap ≠ "" →
      resolvePassword env user = Except.error m →
      (reconcileUser env user).res = Except.error m ∧
      (reconcileUser env user).status = user.status) ∧
    (∀ (env : UserEnv) (user : SftpGoUser) (server : SftpGoServer) (au ap pw m : String),
      user.meta.hasFinalizer = true → user.meta.deletionRequested = false →
      env.getServer = Lookup.found server →
      getAdminCredentials env server = Except.ok (au, ap) → au ≠ "" → ap ≠ "" →
      resolvePassword env user = Except.ok pw →
      resolvePublicKeys env user = Except.error m →
      (reconcileUser env user).res = Except.error m ∧
      (reconcileUser env user).status = user.status) ∧
    (∀ (env : UserEnv) (user : SftpGoUser) (server : SftpGoServer) (au ap pw m : String)
      (keys : List String),
      user.meta.hasFinalizer = true → user.meta.deletionRequested = false →
      env.getServer = Lookup.found server →
      getAdminCredentials env server = Except.ok (au, ap) → au ≠ "" → ap ≠ "" →
      resolvePassword env user = Except.ok pw →
      resolvePublicKeys env user = Except.ok keys →
      Client.getUser env.getUserResp = Except.error m →
      (reconcileUser env user).res = Except.error m ∧
      (reconcileUser env user).status.phase = "Error" ∧
      ∃ c ∈ (reconcileUser env user).status.conditions,
        c.type = "Ready" ∧ c.status = false ∧ c.reason = "APIError") ∧
    (∀ (env : UserEnv) (user : SftpGoUser) (server : SftpGoServer) (au ap pw m : String)
      (keys : List String) (ex : UserPayload),
      user.meta.hasFinalizer = true → user.meta.deletionRequested = false →
      env.getServer = Lookup.found server →
      getAdminCredentials env server = Except.ok (au, ap) → au ≠ "" → ap ≠ "" →
      resolvePassword env user = Except.ok pw →
      resolvePublicKeys env user = Except.ok keys →
      Client.getUser env.getUserResp = Except.ok (some ex) →
      Client.upsertUser env.updateResp = Except.error m →
      (reconcileUser env user).res = Except.error m ∧
      (reconcileUser env user).status.phase = "Error" ∧
      ∃ c ∈ (reconcileUser env user).status.conditions,
        c.type = "Ready" ∧ c.status = false ∧ c.reason = "APIError") ∧
    (∀ (env : UserEnv) (user : SftpGoUser) (server : SftpGoServer) (au ap pw m : String)
      (keys : List String),
      user.meta.hasFinalizer = true → user.meta.deletionRequested = false →
      env.getServer = Lookup.found server →
      getAdminCredentials env server = Except.ok (au, ap) → au ≠ "" → ap ≠ "" →
      resolvePassword env user = Except.ok pw →
      resolvePublicKeys env user = Except.ok keys →
      Client.getUser env.getUserResp = Except.ok none →
      ¬ (pw = "" ∧ keys = []) →
      Client.upsertUser env.createResp = Except.error m →
      (reconcileUser env user).res = Except.error m ∧
      (reconcileUser env user).status.phase = "Error" ∧
      ∃ c ∈ (reconcileUser env user).status.conditions,
        c.type = "Ready" ∧ c.status = false ∧ c.reason = "APIError") := by
  refine ⟨?_, ?_, ?_, ?_, ?_, ?_, ?_, ?_, ?_⟩
  · intro env user hfin hdel h
    refine ⟨by simp [reconcileUser, hfin, hdel, h], by simp [reconcileUser, hfin, hdel, h], ?_⟩
    simp [reconcileUser, hfin, hdel, h]
    exact ⟨_, mem_setStatusCondition _ _, rfl, rfl, rfl⟩
  · intro env user m hfin hdel h
    exact ⟨by simp [reconcileUser, hfin, hdel, h], by simp [reconcileUser, hfin, hdel, h]⟩
  · intro env user server m hfin hdel hsrv hcred
    refine ⟨by simp [reconcileUser, hfin, hdel, hsrv, hcred],
      by simp [reconcileUser, hfin, hdel, hsrv, hcred], ?_⟩
    simp [reconcileUser, hfin, hdel, hsrv, hcred]
    exact ⟨_, mem_setStatusCondition _ _, rfl, rfl, rfl⟩
  · intro env user server au ap hfin hdel hsrv hcred hempty
    refine ⟨by simp [reconcileUser, hfin, hdel, hsrv, hcred, hempty],
      by simp [reconcileUser, hfin, hdel, hsrv, hcred, hempty], ?_⟩
    simp [reconcileUser, hfin, hdel, hsrv, hcred, hempty]
    exact ⟨_, mem_setStatusCondition _ _, rfl, rfl, rfl⟩
  · intro env user server au ap m hfin hdel hsrv hcred hau hap hpw
    exact ⟨by simp [reconcileUser, hfin, hdel, hsrv, hcred, hau, hap, hpw],
      by simp [reconcileUser, hfin, hdel, hsrv, hcred, hau, hap, hpw]⟩
  · intro env user server au ap pw m hfin hdel hsrv hcred hau hap hpw hkeys
    exact ⟨by simp [reconcileUser, hfin, hdel, hsrv, hcred, hau, hap, hpw, hkeys],
      by simp [reconcileUser, hfin, hdel, hsrv, hcred, hau, hap, hpw, hkeys]⟩
  · intro env user server au ap pw m keys hfin hdel hsrv hcred hau hap hpw hkeys hget
    refine ⟨by simp [reconcileUser, hfin, hdel, hsrv, hcred, hau, hap, hpw, hkeys, hget],
      by simp [reconcileUser, hfin, hdel, hsrv, hcred, hau, hap, hpw, hkeys, hget], ?_⟩
    simp [reconcileUser, hfin, hdel, hsrv, hcred, hau, hap, hpw, hkeys, hget]
    exact ⟨_, mem_setStatusCondition _ _, rfl, rfl, rfl⟩
  · intro env user server au ap pw m keys ex hfin hdel hsrv hcred hau hap hpw hkeys hget hupd
    refine ⟨by simp [reconcileUser, hfin, hdel, hsrv, hcred, hau, hap, hpw, hkeys, hget, hupd],
      by simp [reconcileUser, hfin, hdel, hsrv, hcred, hau, hap, hpw, hkeys, hget, hupd], ?_⟩
    simp [reconcileUser, hfin, hdel, hsrv, hcred, hau, hap, hpw, hkeys, hget, hupd]
    exact ⟨_, mem_setStatusCondition _ _, rfl, rfl, rfl⟩
  · intro env user server au ap pw m keys hfin hdel hsrv hcred hau hap hpw hkeys hget hnv hcr
    refine ⟨by simp [reconcileUser, hfin, hdel, hsrv, hcred, hau, hap, hpw, hkeys, hget, hnv, hcr],
      by simp [reconcileUser, hfin, hdel, hsrv, hcred, hau, hap, hpw, hkeys, hget, hnv, hcr], ?_⟩
    simp [reconcileUser, hfin, hdel, hsrv, hcred, hau, hap, hpw, hkeys, hget, hnv, hcr]
    exact ⟨_, mem_setStatusCondition _ _, rfl, rfl, rfl⟩

/-- C8 amended witness: the `ServerNotFound` path for `carol` writes the
reason code and phase `Error`, while the password-resolution failure for
`dave` returns its error with the status untouched. -/
theorem failurePathsConditionPolicyWitness :
    ((reconcileUser envServerGone carolUser).status.phase = "Error" ∧
     ∃ c ∈ (reconcileUser envServerGone carolUser).status.conditions,
       c.type = "Ready" ∧ c.status = false ∧ c.reason = "ServerNotFound") ∧
    ((reconcileUser envUpdate daveUser).res = Except.error "secret dave-pw not found" ∧
     (reconcileUser envUpdate daveUser).status = daveUser.status) := by
  have h1 := failurePathsConditionPolicy.1 envServerGone carolUser rfl rfl rfl
  have h5 := failurePathsConditionPolicy.2.2.2.2.1 envUpdate daveUser serverFixture
    "root" "pw" "secret dave-pw not found" rfl rfl rfl rfl (by decide) (by decide) rfl
  exact ⟨⟨h1.2.1, h1.2.2⟩, h5⟩

/-- C10: the generated configuration artifact is completely independent of
`spec.WebPort` and of the `Config.HTTP` override; it always ends with the
fixed httpd section `configTail`, whose binding port is the literal 8080;
and the only spec-dependent port in it is the sftpd binding port
`configSFTPPort spec`, which follows the spec's SFTP port fields. -/
theorem httpdPortIsConstant8080 :
    (∀ (s : SftpGoServerSpec) (cda : Bool) (w : Int),
      sftpgoMinimalConfig { s with webPort := w } cda = sftpgoMinimalConfig s cda) ∧
    (∀ (s : SftpGoServerSpec) (cda : Bool) (h : Option HTTPConfig),
      sftpgoMinimalConfig { s with config := { s.config with http := h } } cda =
        sftpgoMinimalConfig s cda) ∧
    (∀ (s : SftpGoServerSpec) (cda : Bool),
      ∃ pre, sftpgoMinimalConfig s cda = pre ++ configTail) ∧
    (∀ (s : SftpGoServerSpec) (cda : Bool),
      sftpgoMinimalConfig s cda =
        configHead ++ (toString (configSFTPPort s) ++
          (configMid ++ (dataProviderBlock s.storageBackend cda ++ configTail)))) := by
  refine ⟨fun s cda w => rfl, fun s cda h => rfl, fun s cda => ⟨_, rfl⟩, fun s cda => ?_⟩
  simp [sftpgoMinimalConfig, String.append_assoc]
